import Mathlib

/-!
Verification of the executor-queue broker (screwdriver-cd/executor-queue,
`index.js`, the Redis/Resque variant) against its natural-language
specification.

The JavaScript methods are shallowly embedded as pure Lean functions that
return the ordered list of external effects (queue commands, redis
commands, outbound HTTP calls) a single invocation performs, together with
the invocation result where relevant.  Dynamic configuration objects are
embedded as structures with `Option` fields for the properties that may be
absent (`undefined` in JavaScript); a JavaScript `delete cfg.f` becomes a
functional update setting the field to `none`, and mutation of the shared
configuration object is reflected by threading the updated value.
Results of external collaborators (the freeze-window evaluator from
`lib/freezeWindows`, the cron hasher from `lib/cron`, queue-command
outcomes such as the number of deleted items or an `enqueueAt` error) are
parameters of the embedding, since a single invocation treats them as
opaque inputs.

Numbers (`buildId`, `jobId`, timestamps in milliseconds) are embedded as
`Nat`; JavaScript string coercions (`Array.prototype.toString`, template
literals) are embedded with `Nat.repr` and string concatenation.
-/

namespace ExecutorQueue

/-- EXPIRE_TIME constant from index.js: 1800 seconds (30 minutes). -/
def EXPIRE_TIME : Nat := 1800

/-- RETRY_LIMIT constant from index.js. -/
def RETRY_LIMIT : Nat := 3

/-- RETRY_DELAY constant from index.js, in seconds. -/
def RETRY_DELAY : Nat := 5

/-- DEFAULT_BUILD_TIMEOUT constant from index.js, in minutes. -/
def DEFAULT_BUILD_TIMEOUT : Nat := 90

/-- Queue name (`this.buildQueue`): the configured name prefix followed by
the string builds. -/
def buildQueue (pfx : String) : String := pfx ++ "builds"

/-- Queue name (`this.periodicBuildQueue`). -/
def periodicBuildQueue (pfx : String) : String := pfx ++ "periodicBuilds"

/-- Queue name (`this.frozenBuildQueue`). -/
def frozenBuildQueue (pfx : String) : String := pfx ++ "frozenBuilds"

/-- Hash-table name (`this.buildConfigTable`). -/
def buildConfigTable (pfx : String) : String := pfx ++ "buildConfigs"

/-- Hash-table name (`this.periodicBuildTable`). -/
def periodicBuildTable (pfx : String) : String := pfx ++ "periodicBuildConfigs"

/-- Hash-table name (`this.frozenBuildTable`). -/
def frozenBuildTable (pfx : String) : String := pfx ++ "frozenBuildConfigs"

/-- Hash-table name (`this.timeoutQueue`). -/
def timeoutQueue (pfx : String) : String := pfx ++ "timeoutConfigs"

/-- JavaScript `Array.prototype.toString` on an array of numeric job ids:
the comma-separated decimal representations. -/
def csv (l : List Nat) : String := String.intercalate "," (l.map Nat.repr)

/-- The `build` object optionally carried by a start configuration.  For
the broker only the presence of its `stats` property matters (the
backward-compatibility update at the end of `_start`). -/
structure BuildObj where
  hasStats : Bool
  deriving DecidableEq, Repr

/-- Configuration object passed to `_start`, embedding the fields the
method reads or writes.  `causeMessage`, `build` and `enqueueTime` may be
absent.  Opaque passthrough fields (container, annotations, token payload
details) do not influence control flow and are not modelled. -/
structure StartConfig where
  buildId : Nat
  jobId : Nat
  blockedBy : List Nat
  freezeWindows : List String
  causeMessage : Option String
  jobState : String
  jobArchived : Bool
  token : String
  apiUri : String
  build : Option BuildObj
  enqueueTime : Option Nat
  deriving DecidableEq, Repr

/-- Job object inside a periodic-build configuration (`config.job`). -/
structure PeriodicJob where
  id : Nat
  name : String
  state : String
  archived : Bool
  deriving DecidableEq, Repr

/-- Configuration object passed to `_startPeriodic`.  `buildCron` embeds
`hoek.reach(job, permutations>0>annotations>screwdriver.cd/buildPeriodically)`:
`none` when the annotation is absent, `some s` when present with value
`s`. -/
structure PeriodicConfig where
  pipelineId : Nat
  job : PeriodicJob
  buildCron : Option String
  isUpdate : Bool
  triggerBuild : Bool
  causeMessage : Option String
  deriving DecidableEq, Repr

/-- Entry written to the `timeoutConfigs` hash by `_startTimer`. -/
structure TimeoutEntry where
  jobId : Nat
  startTime : String
  timeout : Nat
  deriving DecidableEq, Repr

/-- Value written by an `hset` redis command (the JSON-serialized object,
kept structured in the embedding). -/
inductive StoreValue
  | startCfg (c : StartConfig)
  | periodicCfg (c : PeriodicConfig)
  | timeoutEntry (e : TimeoutEntry)
  deriving DecidableEq, Repr

/-- Argument object of a queue command (the single positional element of
the args array handed to node-resque). -/
inductive QueueArgs
  | start (buildId jobId : Nat) (blockedBy : String)
  | startPartial (buildId jobId : Nat) (blockedBy : Option String)
  | stop (buildId jobId : Nat) (blockedBy : Option String) (started : Bool)
  | jobArg (jobId : Nat)
  deriving DecidableEq, Repr

/-- One external effect of a broker method: a queue command, a redis
command, an outbound HTTP call, or the backward-compatibility
`build.update()` call.  `enqueueAt` records whether the command went
through the circuit breaker (`queueBreaker.runCommand`) or directly
through `this.queue`. -/
inductive Effect
  | connect
  | del (queue jobName : String) (args : QueueArgs)
  | delDelayed (queue jobName : String) (args : QueueArgs)
  | enqueue (queue jobName : String) (args : QueueArgs)
  | enqueueAt (viaBreaker : Bool) (ts : Nat) (queue jobName : String) (args : QueueArgs)
  | hset (table : String) (key : Nat) (value : StoreValue)
  | hget (table : String) (key : Nat)
  | hdel (table : String) (key : Nat)
  | setKey (key value : String)
  | expire (key : String) (seconds : Nat)
  | updateBuildStatus (buildId : Nat) (status statusMessage : String)
  | postEvent (pipelineId : Nat) (startFrom causeMessage : String)
  | buildUpdate
  | logError (msg : String)
  deriving DecidableEq, Repr

/-- Configuration object passed to `_stop`: `buildId`, `jobId`, and an
optional `blockedBy` array (absent embeds JavaScript `undefined`). -/
structure StopConfig where
  buildId : Nat
  jobId : Nat
  blockedBy : Option (List Nat)
  deriving DecidableEq, Repr

/-- The abort-marker key `deleted_jobId_buildId` written by `_stop`. -/
def deleteKey (jobId buildId : Nat) : String :=
  "deleted_" ++ Nat.repr jobId ++ "_" ++ Nat.repr buildId

/-- Effects of `_stop(config)`, from index.js.  `numDeleted` is the count
returned by the `del` queue command (an input of the invocation).  When
`config.blockedBy` is `undefined` (`none`) no string conversion is
attempted and the field stays `undefined` in both the `del` arguments and
the enqueued stop item.  `started` starts as `true` and is set to `false`
when `numDeleted` is nonzero; the stop item is enqueued unconditionally. -/
def stop (cfg : StopConfig) (numDeleted : Nat) (pfx : String) : List Effect :=
  let blockedBy : Option String := cfg.blockedBy.map csv
  let key := deleteKey cfg.jobId cfg.buildId
  let started : Bool := numDeleted == 0
  [Effect.connect,
   Effect.del (buildQueue pfx) "start"
     (QueueArgs.startPartial cfg.buildId cfg.jobId blockedBy),
   Effect.setKey key "",
   Effect.expire key EXPIRE_TIME,
   Effect.enqueue (buildQueue pfx) "stop"
     (QueueArgs.stop cfg.buildId cfg.jobId blockedBy started)]

/-- The field deletions `delete config.build` and
`delete config.causeMessage` performed by `_start` before any store
write (index.js lines 622 and 623). -/
def deleteBuildAndCause (c : StartConfig) : StartConfig :=
  { c with build := none, causeMessage := none }

/-- Whether `pat` occurs at the head of `s`. -/
def matchesHere : List Char → List Char → Bool
  | [], _ => true
  | _ :: _, [] => false
  | p :: ps, c :: cs => p == c && matchesHere ps cs

/-- Whether `pat` occurs as a contiguous sublist of the second list. -/
def hasSub (pat : List Char) : List Char → Bool
  | [] => matchesHere pat []
  | c :: cs => matchesHere pat (c :: cs) || hasSub pat cs

/-- JavaScript test of the regular expression for the force-start marker
(`/\[(force start)\]/.test(causeMessage)`): the regular expression has
no anchors and the group is purely structural, so it matches exactly the
strings containing the bracketed force-start phrase as a substring;
`undefined` never matches. -/
def containsForceStart : Option String → Bool
  | none => false
  | some s => hasSub ("[force start]".data) s.data

/-- Status message used by the frozen path of `_start`.  The template
literal stringifies the re-enqueue instant; the embedding prints the
millisecond timestamp. -/
def frozenMsg (t : Nat) : String :=
  "Blocked by freeze window, re-enqueued to " ++ Nat.repr t

/-- Effects of `_start(config)`, from index.js.  `now` is the clock value
(`new Date()`, milliseconds); `tOut` is the instant produced by
`timeOutOfWindows(freezeWindows, currentTime)` from `lib/freezeWindows`
(which mutates `currentTime` in place), treated as an input of the
invocation.  The trace is, in order: the lazy connect; the unconditional
`_stopFrozen` call (its own connect, a `delDelayed` of the startFrozen
item and an `hdel` of the frozen config); then, unless the job is
disabled or archived, either the frozen path (FROZEN status update,
`delDelayed`, `hset` of the scrubbed config, breaker-wrapped `enqueueAt`
at `tOut`) when `tOut` is after `now` and the cause message lacks the
force-start marker, or the ready path (`hset` of the scrubbed config with
`enqueueTime` set, `enqueue` of the start item); finally the
backward-compatibility `build.update()` when the destructured `build` has
`stats`. -/
def statsFx : Option BuildObj → List Effect
  | some b => if b.hasStats then [Effect.buildUpdate] else []
  | none => []

/-- Effects of `_start(config)`; see the comment on `statsFx` above for
the invocation-input conventions shared by both definitions. -/
def start (cfg : StartConfig) (now tOut : Nat) (pfx : String) : List Effect :=
  let scrubbed := deleteBuildAndCause cfg
  let pre : List Effect :=
    [Effect.connect,
     Effect.connect,
     Effect.delDelayed (frozenBuildQueue pfx) "startFrozen" (QueueArgs.jobArg cfg.jobId),
     Effect.hdel (frozenBuildTable pfx) cfg.jobId]
  if cfg.jobState = "DISABLED" ∨ cfg.jobArchived then pre
  else
    let forceStart := containsForceStart cfg.causeMessage
    let mainFx : List Effect :=
      if tOut > now ∧ ¬forceStart then
        [Effect.updateBuildStatus cfg.buildId "FROZEN" (frozenMsg tOut),
         Effect.delDelayed (frozenBuildQueue pfx) "startFrozen" (QueueArgs.jobArg cfg.jobId),
         Effect.hset (frozenBuildTable pfx) cfg.jobId (StoreValue.startCfg scrubbed),
         Effect.enqueueAt true tOut (frozenBuildQueue pfx) "startFrozen"
           (QueueArgs.jobArg cfg.jobId)]
      else
        [Effect.hset (buildConfigTable pfx) cfg.buildId
           (StoreValue.startCfg { scrubbed with enqueueTime := some now }),
         Effect.enqueue (buildQueue pfx) "start"
           (QueueArgs.start cfg.buildId cfg.jobId (csv cfg.blockedBy))]
    pre ++ mainFx ++ statsFx cfg.build

/-- The error message node-resque raises for a duplicate delayed job
(compared against in `_startPeriodic`). -/
def dupMsg : String := "Job already enqueued at this time with same arguments"

/-- JavaScript truthiness of a possibly absent string: absent and the
empty string are falsy. -/
def jsTruthyStr : Option String → Bool
  | none => false
  | some s => s ≠ ""

/-- Effects of the `isUpdate` branch of `_startPeriodic`: the
`_stopPeriodic` call (connect, `delDelayed` of the startDelayed item,
`hdel` of the periodic config). -/
def periodicStopFx (cfg : PeriodicConfig) (pfx : String) : List Effect :=
  if cfg.isUpdate then
    [Effect.connect,
     Effect.delDelayed (periodicBuildQueue pfx) "startDelayed"
       (QueueArgs.jobArg cfg.job.id),
     Effect.hdel (periodicBuildTable pfx) cfg.job.id]
  else []

/-- The mutation `config.causeMessage = ...` performed by the
`triggerBuild` branch of `_startPeriodic` before posting the event. -/
def periodicTrigger (cfg : PeriodicConfig) : PeriodicConfig :=
  if cfg.triggerBuild then
    { cfg with causeMessage := some "Started by periodic build scheduler" }
  else cfg

/-- Effects of the `triggerBuild` branch of `_startPeriodic`: the
`postBuildEvent` call, whose failure (`postOutcome = some e`) is caught
and logged. -/
def periodicPostFx (cfg : PeriodicConfig) (postOutcome : Option String) : List Effect :=
  if cfg.triggerBuild then
    Effect.postEvent cfg.pipelineId cfg.job.name
        ((periodicTrigger cfg).causeMessage.getD "Automatically started by scheduler") ::
      (match postOutcome with
       | some e => [Effect.logError ("periodic builds: failed to post build event for job"
           ++ Nat.repr cfg.job.id ++ " in pipeline " ++ Nat.repr cfg.pipelineId ++ ": " ++ e)]
       | none => [])
  else []

/-- The retry decision of `_startPeriodic` after the direct `enqueueAt`
attempt: an exception whose message differs from the duplicate-job
message sets `shouldRetry`; success or a duplicate do not. -/
def shouldRetryEnqueue : Option String → Bool
  | none => false
  | some m => m ≠ dupMsg

/-- Effects of the breaker-wrapped `enqueueAt` retry inside the
scheduling branch: fired only when the first attempt failed with a
message other than the duplicate-job message; its own failure is only
logged. -/
def periodicRetryFx (cfg : PeriodicConfig) (next : Nat)
    (firstTry retryTry : Option String) (pfx : String) : List Effect :=
  if shouldRetryEnqueue firstTry then
    Effect.enqueueAt true next (periodicBuildQueue pfx) "startDelayed"
        (QueueArgs.jobArg cfg.job.id) ::
      (match retryTry with
       | some e => [Effect.logError ("failed to add to delayed queue for job "
           ++ Nat.repr cfg.job.id ++ ": " ++ e)]
       | none => [])
  else []

/-- Effects of the scheduling branch of `_startPeriodic` (index.js lines
404-438): when the buildPeriodically annotation is truthy, the job is
ENABLED and not archived, connect, store the config (with `isUpdate` and
`triggerBuild` forced to false) in the periodic table, `enqueueAt` the
startDelayed item, and possibly retry through the breaker. -/
def periodicSchedFx (cfg : PeriodicConfig) (next : Nat)
    (firstTry retryTry : Option String) (pfx : String) : List Effect :=
  if jsTruthyStr cfg.buildCron ∧ cfg.job.state = "ENABLED" ∧ ¬cfg.job.archived then
    let stored := { periodicTrigger cfg with isUpdate := false, triggerBuild := false }
    [Effect.connect,
     Effect.hset (periodicBuildTable pfx) cfg.job.id (StoreValue.periodicCfg stored),
     Effect.enqueueAt false next (periodicBuildQueue pfx) "startDelayed"
       (QueueArgs.jobArg cfg.job.id)] ++
      periodicRetryFx cfg next firstTry retryTry pfx
  else []

/-- Effects and result of `_startPeriodic(config)`, from index.js.
`next` is the timestamp `cron.next(cron.transform(buildCron, job.id))`
computed by `lib/cron`, treated as an input.  `firstTry` is the outcome
of the direct `this.queue.enqueueAt` call (`none` on success, `some m`
when it threw with message `m`); `retryTry` the outcome of the
breaker-wrapped retry; `postOutcome` the outcome of `postBuildEvent`.
The caching of `userTokenGen` is instance state without external effect
and is not modelled; `connect` and the `hset` are awaited without a
catch, so the embedding covers invocations in which they succeed (a
failure there would reject the whole call before the enqueue step).
The returned Boolean is `true` when the call resolves, which it does on
every path of the method body. -/
def startPeriodic (cfg : PeriodicConfig) (next : Nat)
    (firstTry retryTry postOutcome : Option String) (pfx : String) :
    List Effect × Bool :=
  (periodicStopFx cfg pfx ++ periodicPostFx cfg postOutcome ++
    periodicSchedFx cfg next firstTry retryTry pfx, true)

/-- Configuration object passed to `_startTimer`.  `timeoutAnn`
embeds `hoek.reach(config, annotations>screwdriver.cd/timeout)`, a
numeric annotation that may be absent. -/
structure TimerConfig where
  buildId : Nat
  jobId : Nat
  buildStatus : String
  startTime : String
  timeoutAnn : Option Nat
  deriving DecidableEq, Repr

/-- JavaScript `parseInt(a || d, 10)` for a possibly absent numeric
annotation: absent and the number 0 are falsy, so both fall back to the
default. -/
def jsOrNat (a : Option Nat) (d : Nat) : Nat :=
  match a with
  | none => d
  | some n => if n = 0 then d else n

/-- Effects and result of `_startTimer(config)`, from index.js.  The
whole body is inside a try/catch whose handler logs and resolves, so the
call resolves (`true`) on every path.  `connectRes`, `hgetRes` and
`hsetRes` are the outcomes of the awaited external calls; `hgetRes`
yields the existing `timeoutConfigs` entry, if any. -/
def startTimer (cfg : TimerConfig) (connectRes : Except String Unit)
    (hgetRes : Except String (Option String)) (hsetRes : Except String Unit)
    (pfx : String) : List Effect × Bool :=
  let oops := fun (e : String) =>
    Effect.logError ("Error occurred while saving to timeout queue " ++ e)
  match connectRes with
  | Except.error e => ([Effect.connect, oops e], true)
  | Except.ok _ =>
    if cfg.buildStatus = "RUNNING" then
      let timeout := jsOrNat cfg.timeoutAnn DEFAULT_BUILD_TIMEOUT
      match hgetRes with
      | Except.error e =>
        ([Effect.connect, Effect.hget (timeoutQueue pfx) cfg.buildId, oops e], true)
      | Except.ok (some _) =>
        ([Effect.connect, Effect.hget (timeoutQueue pfx) cfg.buildId], true)
      | Except.ok none =>
        let entry : TimeoutEntry := ⟨cfg.jobId, cfg.startTime, timeout⟩
        let fx := [Effect.connect, Effect.hget (timeoutQueue pfx) cfg.buildId,
          Effect.hset (timeoutQueue pfx) cfg.buildId (StoreValue.timeoutEntry entry)]
        match hsetRes with
        | Except.error e => (fx ++ [oops e], true)
        | Except.ok _ => (fx, true)
    else ([Effect.connect], true)

/-- HTTP response as seen by the requestretry callbacks. -/
structure HttpResponse where
  statusCode : Nat
  body : String
  deriving DecidableEq, Repr

/-- Retry strategy `this.requestRetryStrategy` from index.js: retry on
any transport error or any status other than 201 and 200. -/
def requestRetryStrategy (err : Option String) (response : HttpResponse) : Bool :=
  err.isSome || (response.statusCode != 201 && response.statusCode != 200)

/-- Retry strategy `this.requestRetryStrategyPostEvent` from index.js:
retry on any transport error or any status other than 201, 200 and 404
(the comment notes postEvent can return 404 if there is no job to
start). -/
def requestRetryStrategyPostEvent (err : Option String) (response : HttpResponse) : Bool :=
  err.isSome ||
    (response.statusCode != 201 && response.statusCode != 200 && response.statusCode != 404)

/-- Final promise settlement of `postBuildEvent` (index.js lines
317-328): resolve on a 201 response without transport error; reject with
the serialized body on any non-201 status; otherwise reject with the
transport error. -/
def postEventOutcome (err : Option String) (response : HttpResponse) :
    Except String HttpResponse :=
  if err.isNone ∧ response.statusCode = 201 then Except.ok response
  else if response.statusCode ≠ 201 then Except.error response.body
  else Except.error (err.getD "")

/-- Final promise settlement of `updateBuildStatus` (index.js lines
349-361): resolve on a 200 response without transport error; reject with
the serialized body on any non-200 status; otherwise reject with the
transport error. -/
def updateBuildStatusOutcome (err : Option String) (response : HttpResponse) :
    Except String HttpResponse :=
  if err.isNone ∧ response.statusCode = 200 then Except.ok response
  else if response.statusCode ≠ 200 then Except.error response.body
  else Except.error (err.getD "")

/-- Request options shared by the two outbound calls. -/
structure RetryOptions where
  maxAttempts : Nat
  retryDelayMs : Nat
  deriving DecidableEq, Repr

/-- The retry options both `postBuildEvent` and `updateBuildStatus` pass
to requestretry: `maxAttempts: RETRY_LIMIT`, `retryDelay: RETRY_DELAY *
1000` milliseconds. -/
def requestRetryOptions : RetryOptions :=
  { maxAttempts := RETRY_LIMIT, retryDelayMs := RETRY_DELAY * 1000 }

/-- The requestretry driver: starting from attempt index `idx` with
`remaining` attempts allowed, repeat while the strategy asks for a retry
and attempts remain, and return the index of the attempt whose
`(err, response)` pair is finally handed to the callback.  `outcomes i`
is the `(err, response)` pair of the i-th attempt. -/
def finalAttempt (strategy : Option String → HttpResponse → Bool)
    (outcomes : Nat → Option String × HttpResponse) :
    Nat → Nat → Nat
  | 0, idx => idx
  | 1, idx => idx
  | Nat.succ (Nat.succ n), idx =>
    if strategy (outcomes idx).1 (outcomes idx).2 then
      finalAttempt strategy outcomes (Nat.succ n) (idx + 1)
    else idx

/-- Discriminator for `enqueue` effects. -/
def isEnqueue : Effect → Bool
  | Effect.enqueue _ _ _ => true
  | _ => false

/-- Discriminator for `enqueueAt` effects. -/
def isEnqueueAt : Effect → Bool
  | Effect.enqueueAt _ _ _ _ _ => true
  | _ => false

/-- Concrete start configuration used to exercise the theorems: an
enabled, unarchived job whose cause message lacks the force-start
marker. -/
def cfgPlain : StartConfig :=
  { buildId := 8609, jobId := 777, blockedBy := [777],
    freezeWindows := ["* * * * *"], causeMessage := some "ad hoc",
    jobState := "ENABLED", jobArchived := false, token := "t",
    apiUri := "http://api", build := none, enqueueTime := none }

/-- Concrete start configuration whose cause message carries the
force-start marker. -/
def cfgForce : StartConfig :=
  { cfgPlain with causeMessage := some "[force start] ad hoc" }

/-- Concrete periodic configuration: enabled, unarchived, with a
buildPeriodically annotation. -/
def pCfgA : PeriodicConfig :=
  { pipelineId := 42,
    job := { id := 1234, name := "main", state := "ENABLED", archived := false },
    buildCron := some "H * * * *", isUpdate := false, triggerBuild := false,
    causeMessage := none }

section Lemmas

/-- Helper: a nonempty common left factor preserves string inequality. -/
theorem append_ne_of_ne (pfx s t : String) (h : s ≠ t) : pfx ++ s ≠ pfx ++ t := by
  intro he
  apply h
  apply String.ext
  have hd : (pfx ++ s).data = (pfx ++ t).data := by rw [he]
  rw [String.data_append, String.data_append] at hd
  exact List.append_cancel_left hd

/-- Helper: the backward-compatibility trace is empty or the single
`build.update()` call. -/
theorem statsFx_cases (b : Option BuildObj) :
    statsFx b = [] ∨ statsFx b = [Effect.buildUpdate] := by
  match b with
  | none => exact Or.inl rfl
  | some bb =>
    by_cases hb : bb.hasStats
    · exact Or.inr (by simp [statsFx, hb])
    · exact Or.inl (by simp [statsFx, hb])

end Lemmas

/-- C2: every `Stop(buildId, jobId, blockedBy)` invocation, whatever
count the `del` queue command returns, writes the key
`deleted_jobId_buildId` with the empty value and a TTL of `EXPIRE_TIME =
1800` seconds, and enqueues exactly one stop item on the builds queue
whose `started` field is true exactly when `numDeleted` is zero. -/
theorem c2_stop_marker_and_stop_item (cfg : StopConfig) (numDeleted : Nat) (pfx : String) :
    Effect.setKey (deleteKey cfg.jobId cfg.buildId) "" ∈ stop cfg numDeleted pfx ∧
    Effect.expire (deleteKey cfg.jobId cfg.buildId) EXPIRE_TIME ∈ stop cfg numDeleted pfx ∧
    EXPIRE_TIME = 1800 ∧
    (stop cfg numDeleted pfx).filter isEnqueue =
      [Effect.enqueue (buildQueue pfx) "stop"
        (QueueArgs.stop cfg.buildId cfg.jobId (cfg.blockedBy.map csv) (numDeleted == 0))] := by
  refine ⟨?_, ?_, rfl, ?_⟩ <;> simp [stop, isEnqueue]

/-- C10: `Stop` accepts a configuration without a `blockedBy` field: the
call succeeds, the `del` command on the builds queue carries `blockedBy`
undefined, and the enqueued stop item carries `blockedBy` undefined. -/
theorem c10_stop_without_blockedBy (cfg : StopConfig) (numDeleted : Nat) (pfx : String)
    (h : cfg.blockedBy = none) :
    Effect.del (buildQueue pfx) "start"
        (QueueArgs.startPartial cfg.buildId cfg.jobId none) ∈ stop cfg numDeleted pfx ∧
    Effect.enqueue (buildQueue pfx) "stop"
        (QueueArgs.stop cfg.buildId cfg.jobId none (numDeleted == 0)) ∈
      stop cfg numDeleted pfx := by
  constructor <;> simp [stop, h]

/-- Witness for C10 at a concrete configuration lacking `blockedBy`. -/
theorem c10_witness :
    Effect.del (buildQueue "") "start" (QueueArgs.startPartial 8609 777 none) ∈
        stop ⟨8609, 777, none⟩ 0 "" ∧
      Effect.enqueue (buildQueue "") "stop" (QueueArgs.stop 8609 777 none (0 == 0)) ∈
        stop ⟨8609, 777, none⟩ 0 "" :=
  c10_stop_without_blockedBy ⟨8609, 777, none⟩ 0 "" rfl

/-- C1: when the freeze evaluator pushes the instant strictly past `now`
and the cause message lacks the force-start marker (and the job is
neither disabled nor archived, the guard `Start` checks first), `Start`
takes the frozen path: no item is enqueued on the ready builds queue;
the existing startFrozen delayed item for the job is deleted before the
config is stored in `frozenBuildConfigs` under `jobId` and before the
new startFrozen item is enqueued; exactly one startFrozen item is
enqueued, at `tOut`, in the frozenBuilds delayed queue.  The stored
value is the configuration object as `Start` holds it at the store
(`Start` has deleted its `build` and `causeMessage` fields in place, cf.
index.js lines 622-623), which is what `frozenBuildConfigs[jobId] ==
cfg` denotes for the mutated shared object. -/
theorem c1_start_frozen_path (cfg : StartConfig) (now tOut : Nat) (pfx : String)
    (hfrz : now < tOut) (hforce : containsForceStart cfg.causeMessage = false)
    (hstate : cfg.jobState ≠ "DISABLED") (harch : cfg.jobArchived = false) :
    (∀ jn a, Effect.enqueue (buildQueue pfx) jn a ∉ start cfg now tOut pfx) ∧
    (∃ l1 l2 l3 l4, start cfg now tOut pfx =
      l1 ++ Effect.delDelayed (frozenBuildQueue pfx) "startFrozen"
          (QueueArgs.jobArg cfg.jobId) ::
        (l2 ++ Effect.hset (frozenBuildTable pfx) cfg.jobId
            (StoreValue.startCfg (deleteBuildAndCause cfg)) ::
          (l3 ++ Effect.enqueueAt true tOut (frozenBuildQueue pfx) "startFrozen"
              (QueueArgs.jobArg cfg.jobId) :: l4))) ∧
    (start cfg now tOut pfx).filter isEnqueueAt =
      [Effect.enqueueAt true tOut (frozenBuildQueue pfx) "startFrozen"
        (QueueArgs.jobArg cfg.jobId)] := by
  have hTr : start cfg now tOut pfx =
      [Effect.connect, Effect.connect,
       Effect.delDelayed (frozenBuildQueue pfx) "startFrozen" (QueueArgs.jobArg cfg.jobId),
       Effect.hdel (frozenBuildTable pfx) cfg.jobId,
       Effect.updateBuildStatus cfg.buildId "FROZEN" (frozenMsg tOut),
       Effect.delDelayed (frozenBuildQueue pfx) "startFrozen" (QueueArgs.jobArg cfg.jobId),
       Effect.hset (frozenBuildTable pfx) cfg.jobId
         (StoreValue.startCfg (deleteBuildAndCause cfg)),
       Effect.enqueueAt true tOut (frozenBuildQueue pfx) "startFrozen"
         (QueueArgs.jobArg cfg.jobId)] ++ statsFx cfg.build := by
    simp only [start]
    rw [if_neg (by simp [hstate, harch]), if_pos ⟨hfrz, by simp [hforce]⟩]
    simp
  refine ⟨?_, ?_, ?_⟩
  · intro jn a hmem
    rw [hTr] at hmem
    rcases statsFx_cases cfg.build with h | h <;> rw [h] at hmem <;> simp at hmem
  · exact ⟨[Effect.connect, Effect.connect],
      [Effect.hdel (frozenBuildTable pfx) cfg.jobId,
       Effect.updateBuildStatus cfg.buildId "FROZEN" (frozenMsg tOut),
       Effect.delDelayed (frozenBuildQueue pfx) "startFrozen" (QueueArgs.jobArg cfg.jobId)],
      [], statsFx cfg.build, by rw [hTr]; simp⟩
  · rw [hTr]
    rcases statsFx_cases cfg.build with h | h <;> rw [h] <;> simp [isEnqueueAt]

/-- Witness for C1 at a concrete enabled configuration inside a freeze
window. -/
theorem c1_witness :
    (∀ jn a, Effect.enqueue (buildQueue "") jn a ∉ start cfgPlain 100 160 "") ∧
    (∃ l1 l2 l3 l4, start cfgPlain 100 160 "" =
      l1 ++ Effect.delDelayed (frozenBuildQueue "") "startFrozen"
          (QueueArgs.jobArg cfgPlain.jobId) ::
        (l2 ++ Effect.hset (frozenBuildTable "") cfgPlain.jobId
            (StoreValue.startCfg (deleteBuildAndCause cfgPlain)) ::
          (l3 ++ Effect.enqueueAt true 160 (frozenBuildQueue "") "startFrozen"
              (QueueArgs.jobArg cfgPlain.jobId) :: l4))) ∧
    (start cfgPlain 100 160 "").filter isEnqueueAt =
      [Effect.enqueueAt true 160 (frozenBuildQueue "") "startFrozen"
        (QueueArgs.jobArg cfgPlain.jobId)] :=
  c1_start_frozen_path cfgPlain 100 160 "" (by decide) (by decide) (by decide) rfl

/-- C5: when the cause message matches the force-start regular
expression, `Start` takes the ready path even if the freeze evaluator
returned a later instant (`tOut` is arbitrary here): it stores the
configuration (as mutated by `Start`: `enqueueTime` set, `build` and
`causeMessage` deleted) in `buildConfigs` under `buildId`, enqueues
exactly one start item with the comma-separated `blockedBy` string on
the builds queue, writes no entry to `frozenBuildConfigs`, and issues no
build-status update. -/
theorem c5_start_force_override (cfg : StartConfig) (now tOut : Nat) (pfx : String)
    (hforce : containsForceStart cfg.causeMessage = true)
    (hstate : cfg.jobState ≠ "DISABLED") (harch : cfg.jobArchived = false) :
    Effect.hset (buildConfigTable pfx) cfg.buildId
        (StoreValue.startCfg { deleteBuildAndCause cfg with enqueueTime := some now }) ∈
      start cfg now tOut pfx ∧
    (start cfg now tOut pfx).filter isEnqueue =
      [Effect.enqueue (buildQueue pfx) "start"
        (QueueArgs.start cfg.buildId cfg.jobId (csv cfg.blockedBy))] ∧
    (∀ k v, Effect.hset (frozenBuildTable pfx) k v ∉ start cfg now tOut pfx) ∧
    (∀ b s m, Effect.updateBuildStatus b s m ∉ start cfg now tOut pfx) := by
  have hTr : start cfg now tOut pfx =
      [Effect.connect, Effect.connect,
       Effect.delDelayed (frozenBuildQueue pfx) "startFrozen" (QueueArgs.jobArg cfg.jobId),
       Effect.hdel (frozenBuildTable pfx) cfg.jobId,
       Effect.hset (buildConfigTable pfx) cfg.buildId
         (StoreValue.startCfg { deleteBuildAndCause cfg with enqueueTime := some now }),
       Effect.enqueue (buildQueue pfx) "start"
         (QueueArgs.start cfg.buildId cfg.jobId (csv cfg.blockedBy))] ++ statsFx cfg.build := by
    simp only [start]
    rw [if_neg (by simp [hstate, harch]), if_neg (by simp [hforce])]
    simp
  have hne : frozenBuildTable pfx ≠ buildConfigTable pfx := by
    unfold frozenBuildTable buildConfigTable
    exact append_ne_of_ne pfx _ _ (by decide)
  refine ⟨?_, ?_, ?_, ?_⟩
  · rw [hTr]; simp
  · rw [hTr]
    rcases statsFx_cases cfg.build with h | h <;> rw [h] <;> simp [isEnqueue]
  · intro k v hmem
    rw [hTr] at hmem
    rcases statsFx_cases cfg.build with h | h <;> rw [h] at hmem <;>
      simp [hne] at hmem
  · intro b s m hmem
    rw [hTr] at hmem
    rcases statsFx_cases cfg.build with h | h <;> rw [h] at hmem <;> simp at hmem

/-- Witness for C5 at a concrete configuration whose cause message
carries the force-start marker, with the freeze evaluator returning a
later instant. -/
theorem c5_witness :
    Effect.hset (buildConfigTable "") cfgForce.buildId
        (StoreValue.startCfg { deleteBuildAndCause cfgForce with enqueueTime := some 100 }) ∈
      start cfgForce 100 160 "" ∧
    (start cfgForce 100 160 "").filter isEnqueue =
      [Effect.enqueue (buildQueue "") "start"
        (QueueArgs.start cfgForce.buildId cfgForce.jobId (csv cfgForce.blockedBy))] ∧
    (∀ k v, Effect.hset (frozenBuildTable "") k v ∉ start cfgForce 100 160 "") ∧
    (∀ b s m, Effect.updateBuildStatus b s m ∉ start cfgForce 100 160 "") :=
  c5_start_force_override cfgForce 100 160 "" (by decide) (by decide) rfl

/-- C9: every value `Start` writes to a hash table (whether the frozen
or the ready path ran, and for any input configuration) is a start
configuration from which the `build` and `causeMessage` fields have
been deleted: the two `delete` statements precede every store write. -/
theorem c9_stored_config_scrubbed (cfg : StartConfig) (now tOut : Nat) (pfx : String)
    (table : String) (k : Nat) (v : StoreValue)
    (hmem : Effect.hset table k v ∈ start cfg now tOut pfx) :
    ∃ c, v = StoreValue.startCfg c ∧ c.build = none ∧ c.causeMessage = none := by
  simp only [start] at hmem
  split at hmem
  · simp at hmem
  · rcases statsFx_cases cfg.build with h | h <;> rw [h] at hmem <;>
      split at hmem <;> simp at hmem <;>
      obtain ⟨h1, h2, h3⟩ := hmem <;>
      refine ⟨_, h3, ?_, ?_⟩ <;> simp [deleteBuildAndCause]

/-- Witness for C9: the value stored by the ready path at a concrete
configuration carries no `build` and no `causeMessage` field. -/
theorem c9_witness :
    ∃ c, StoreValue.startCfg { deleteBuildAndCause cfgForce with enqueueTime := some 100 } =
        StoreValue.startCfg c ∧ c.build = none ∧ c.causeMessage = none :=
  c9_stored_config_scrubbed cfgForce 100 160 "" (buildConfigTable "") cfgForce.buildId
    (StoreValue.startCfg { deleteBuildAndCause cfgForce with enqueueTime := some 100 })
    (by decide)

/-- Helper: the `_stopPeriodic` sub-trace stores nothing. -/
theorem hset_not_mem_stopFx (cfg : PeriodicConfig) (pfx t : String) (k : Nat) (v : StoreValue) :
    Effect.hset t k v ∉ periodicStopFx cfg pfx := by
  by_cases h : cfg.isUpdate <;> simp [periodicStopFx, h]

/-- Helper: the post-event sub-trace stores nothing. -/
theorem hset_not_mem_postFx (cfg : PeriodicConfig) (po : Option String) (t : String)
    (k : Nat) (v : StoreValue) : Effect.hset t k v ∉ periodicPostFx cfg po := by
  by_cases h : cfg.triggerBuild <;> rcases po with _ | e <;> simp [periodicPostFx, h]

/-- Helper: the retry sub-trace stores nothing. -/
theorem hset_not_mem_retryFx (cfg : PeriodicConfig) (next : Nat) (ft rt : Option String)
    (pfx t : String) (k : Nat) (v : StoreValue) :
    Effect.hset t k v ∉ periodicRetryFx cfg next ft rt pfx := by
  by_cases h : shouldRetryEnqueue ft <;> rcases rt with _ | e <;>
    simp [periodicRetryFx, h]

/-- Helper: the `_stopPeriodic` sub-trace contains no delayed enqueue. -/
theorem filterEnqAt_stopFx (cfg : PeriodicConfig) (pfx : String) :
    (periodicStopFx cfg pfx).filter isEnqueueAt = [] := by
  by_cases h : cfg.isUpdate <;> simp [periodicStopFx, h, isEnqueueAt]

/-- Helper: the post-event sub-trace contains no delayed enqueue. -/
theorem filterEnqAt_postFx (cfg : PeriodicConfig) (po : Option String) :
    (periodicPostFx cfg po).filter isEnqueueAt = [] := by
  by_cases h : cfg.triggerBuild <;> rcases po with _ | e <;>
    simp [periodicPostFx, h, isEnqueueAt]

/-- C6: the scheduling branch of `StartPeriodic` (store into
`periodicBuildConfigs`, then `enqueueAt` on `periodicBuilds`) runs
exactly when the buildPeriodically annotation is truthy, the job state
is ENABLED, and the job is not archived; every stored periodic config
has `isUpdate` and `triggerBuild` forced to false; and the store
happens immediately before the delayed enqueue. -/
theorem c6_periodic_sched_branch (cfg : PeriodicConfig) (next : Nat)
    (firstTry retryTry postOutcome : Option String) (pfx : String) :
    ((∃ k v, Effect.hset (periodicBuildTable pfx) k v ∈
        (startPeriodic cfg next firstTry retryTry postOutcome pfx).1) ↔
      (jsTruthyStr cfg.buildCron ∧ cfg.job.state = "ENABLED" ∧ ¬cfg.job.archived)) ∧
    (∀ k v, Effect.hset (periodicBuildTable pfx) k v ∈
        (startPeriodic cfg next firstTry retryTry postOutcome pfx).1 →
      ∃ c, v = StoreValue.periodicCfg c ∧ c.isUpdate = false ∧ c.triggerBuild = false) ∧
    ((jsTruthyStr cfg.buildCron ∧ cfg.job.state = "ENABLED" ∧ ¬cfg.job.archived) →
      ∃ l1 l2 c, (startPeriodic cfg next firstTry retryTry postOutcome pfx).1 =
        l1 ++ Effect.hset (periodicBuildTable pfx) cfg.job.id (StoreValue.periodicCfg c) ::
          Effect.enqueueAt false next (periodicBuildQueue pfx) "startDelayed"
            (QueueArgs.jobArg cfg.job.id) :: l2) := by
  by_cases hC : jsTruthyStr cfg.buildCron ∧ cfg.job.state = "ENABLED" ∧ ¬cfg.job.archived
  · have hTr : (startPeriodic cfg next firstTry retryTry postOutcome pfx).1 =
        periodicStopFx cfg pfx ++ periodicPostFx cfg postOutcome ++
          ([Effect.connect,
            Effect.hset (periodicBuildTable pfx) cfg.job.id
              (StoreValue.periodicCfg
                { periodicTrigger cfg with isUpdate := false, triggerBuild := false }),
            Effect.enqueueAt false next (periodicBuildQueue pfx) "startDelayed"
              (QueueArgs.jobArg cfg.job.id)] ++
            periodicRetryFx cfg next firstTry retryTry pfx) := by
      simp only [startPeriodic, periodicSchedFx]
      rw [if_pos hC]
    refine ⟨⟨fun _ => hC, fun _ => ?_⟩, ?_, fun _ => ?_⟩
    · exact ⟨cfg.job.id, StoreValue.periodicCfg
        { periodicTrigger cfg with isUpdate := false, triggerBuild := false },
        by rw [hTr]; simp⟩
    · intro k v hmem
      rw [hTr] at hmem
      rcases List.mem_append.mp hmem with hmem | hmem
      · rcases List.mem_append.mp hmem with hmem | hmem
        · exact absurd hmem (hset_not_mem_stopFx cfg pfx _ k v)
        · exact absurd hmem (hset_not_mem_postFx cfg postOutcome _ k v)
      · rcases List.mem_append.mp hmem with hmem | hmem
        · simp at hmem
          obtain ⟨hk, hv⟩ := hmem
          exact ⟨_, hv, rfl, rfl⟩
        · exact absurd hmem (hset_not_mem_retryFx cfg next firstTry retryTry pfx _ k v)
    · exact ⟨periodicStopFx cfg pfx ++ periodicPostFx cfg postOutcome ++ [Effect.connect],
        periodicRetryFx cfg next firstTry retryTry pfx,
        { periodicTrigger cfg with isUpdate := false, triggerBuild := false },
        by rw [hTr]; simp⟩
  · have hTr : (startPeriodic cfg next firstTry retryTry postOutcome pfx).1 =
        periodicStopFx cfg pfx ++ periodicPostFx cfg postOutcome := by
      simp only [startPeriodic, periodicSchedFx]
      rw [if_neg hC]
      simp
    have hno : ∀ k v, Effect.hset (periodicBuildTable pfx) k v ∉
        (startPeriodic cfg next firstTry retryTry postOutcome pfx).1 := by
      intro k v hmem
      rw [hTr] at hmem
      rcases List.mem_append.mp hmem with hmem | hmem
      · exact absurd hmem (hset_not_mem_stopFx cfg pfx _ k v)
      · exact absurd hmem (hset_not_mem_postFx cfg postOutcome _ k v)
    refine ⟨⟨fun h => ?_, fun h => absurd h hC⟩, ?_, fun h => absurd h hC⟩
    · obtain ⟨k, v, hmem⟩ := h
      exact absurd hmem (hno k v)
    · intro k v hmem
      exact absurd hmem (hno k v)

/-- Witness for C6 at a concrete enabled periodic configuration. -/
theorem c6_witness :
    ((∃ k v, Effect.hset (periodicBuildTable "") k v ∈
        (startPeriodic pCfgA 1500000 none none none "").1) ↔
      (jsTruthyStr pCfgA.buildCron ∧ pCfgA.job.state = "ENABLED" ∧ ¬pCfgA.job.archived)) ∧
    (∀ k v, Effect.hset (periodicBuildTable "") k v ∈
        (startPeriodic pCfgA 1500000 none none none "").1 →
      ∃ c, v = StoreValue.periodicCfg c ∧ c.isUpdate = false ∧ c.triggerBuild = false) ∧
    ((jsTruthyStr pCfgA.buildCron ∧ pCfgA.job.state = "ENABLED" ∧ ¬pCfgA.job.archived) →
      ∃ l1 l2 c, (startPeriodic pCfgA 1500000 none none none "").1 =
        l1 ++ Effect.hset (periodicBuildTable "") pCfgA.job.id (StoreValue.periodicCfg c) ::
          Effect.enqueueAt false 1500000 (periodicBuildQueue "") "startDelayed"
            (QueueArgs.jobArg pCfgA.job.id) :: l2) :=
  c6_periodic_sched_branch pCfgA 1500000 none none none ""

/-- C4: once `StartPeriodic` reaches the `enqueueAt` step, the call
always resolves successfully; a duplicate-job failure of the direct
`enqueueAt` causes no retry (exactly one delayed-enqueue attempt
appears); any other failure causes exactly one breaker-wrapped retry,
and this holds for every outcome of that retry, so even a failing retry
leaves the call successful and a duplicate is never surfaced as an
error. -/
theorem c4_periodic_enqueue_retry (cfg : PeriodicConfig) (next : Nat)
    (firstTry retryTry postOutcome : Option String) (pfx : String)
    (hC : jsTruthyStr cfg.buildCron ∧ cfg.job.state = "ENABLED" ∧ ¬cfg.job.archived) :
    (startPeriodic cfg next firstTry retryTry postOutcome pfx).2 = true ∧
    (firstTry = some dupMsg →
      ((startPeriodic cfg next firstTry retryTry postOutcome pfx).1).filter isEnqueueAt =
        [Effect.enqueueAt false next (periodicBuildQueue pfx) "startDelayed"
          (QueueArgs.jobArg cfg.job.id)]) ∧
    (∀ m, firstTry = some m → m ≠ dupMsg →
      ((startPeriodic cfg next firstTry retryTry postOutcome pfx).1).filter isEnqueueAt =
        [Effect.enqueueAt false next (periodicBuildQueue pfx) "startDelayed"
           (QueueArgs.jobArg cfg.job.id),
         Effect.enqueueAt true next (periodicBuildQueue pfx) "startDelayed"
           (QueueArgs.jobArg cfg.job.id)]) := by
  refine ⟨rfl, ?_, ?_⟩
  · intro hf
    simp only [startPeriodic, periodicSchedFx]
    rw [if_pos hC]
    simp [List.filter_append, filterEnqAt_stopFx, filterEnqAt_postFx, isEnqueueAt,
      periodicRetryFx, hf, shouldRetryEnqueue]
  · intro m hf hm
    simp only [startPeriodic, periodicSchedFx]
    rw [if_pos hC]
    rcases retryTry with _ | e <;>
      simp [List.filter_append, filterEnqAt_stopFx, filterEnqAt_postFx, isEnqueueAt,
        periodicRetryFx, hf, hm, shouldRetryEnqueue]

/-- Witness for C4: a duplicate failure of the direct `enqueueAt` at a
concrete enabled periodic configuration. -/
theorem c4_witness :
    (startPeriodic pCfgA 1500000 (some dupMsg) none none "").2 = true ∧
    (some dupMsg = some dupMsg →
      ((startPeriodic pCfgA 1500000 (some dupMsg) none none "").1).filter isEnqueueAt =
        [Effect.enqueueAt false 1500000 (periodicBuildQueue "") "startDelayed"
          (QueueArgs.jobArg pCfgA.job.id)]) ∧
    (∀ m, some dupMsg = some m → m ≠ dupMsg →
      ((startPeriodic pCfgA 1500000 (some dupMsg) none none "").1).filter isEnqueueAt =
        [Effect.enqueueAt false 1500000 (periodicBuildQueue "") "startDelayed"
           (QueueArgs.jobArg pCfgA.job.id),
         Effect.enqueueAt true 1500000 (periodicBuildQueue "") "startDelayed"
           (QueueArgs.jobArg pCfgA.job.id)]) :=
  c4_periodic_enqueue_retry pCfgA 1500000 (some dupMsg) none none "" (by decide)

/-- Counterexample for C7 as stated: with a present timeout annotation
whose value is 0, `StartTimer` writes timeout 90 (the JavaScript
expression `parseInt(buildTimeout || DEFAULT_BUILD_TIMEOUT, 10)` treats
the number 0 as falsy), not the annotation value 0 the claim
prescribes. -/
theorem c7_counterexample :
    (startTimer ⟨8609, 777, "RUNNING", "2024-01-01T00:00:00Z", some 0⟩
        (Except.ok ()) (Except.ok none) (Except.ok ()) "").1 =
      [Effect.connect, Effect.hget (timeoutQueue "") 8609,
       Effect.hset (timeoutQueue "") 8609
         (StoreValue.timeoutEntry ⟨777, "2024-01-01T00:00:00Z", 90⟩)] ∧
    Effect.hset (timeoutQueue "") 8609
        (StoreValue.timeoutEntry ⟨777, "2024-01-01T00:00:00Z", 0⟩) ∉
      (startTimer ⟨8609, 777, "RUNNING", "2024-01-01T00:00:00Z", some 0⟩
        (Except.ok ()) (Except.ok none) (Except.ok ()) "").1 := by
  constructor <;> decide

/-- C7 (amended): `StartTimer` returns success on every path (all errors
are logged and swallowed); when the build status is not RUNNING nothing
is written; when an entry for `buildId` already exists nothing is
written (idempotence); otherwise the entry `(jobId, startTime, timeout)`
is written where `timeout` is the timeout annotation when present and
nonzero, and 90 when the annotation is absent or zero. -/
theorem c7_start_timer (cfg : TimerConfig) (connectRes : Except String Unit)
    (hgetRes : Except String (Option String)) (hsetRes : Except String Unit)
    (pfx : String) :
    (startTimer cfg connectRes hgetRes hsetRes pfx).2 = true ∧
    (cfg.buildStatus ≠ "RUNNING" →
      ∀ t k v, Effect.hset t k v ∉ (startTimer cfg connectRes hgetRes hsetRes pfx).1) ∧
    (∀ d, hgetRes = Except.ok (some d) →
      ∀ t k v, Effect.hset t k v ∉ (startTimer cfg connectRes hgetRes hsetRes pfx).1) ∧
    (hgetRes = Except.ok none → connectRes = Except.ok () → cfg.buildStatus = "RUNNING" →
      Effect.hset (timeoutQueue pfx) cfg.buildId
          (StoreValue.timeoutEntry
            ⟨cfg.jobId, cfg.startTime, jsOrNat cfg.timeoutAnn DEFAULT_BUILD_TIMEOUT⟩) ∈
        (startTimer cfg connectRes hgetRes hsetRes pfx).1) ∧
    (∀ n, cfg.timeoutAnn = some n → n ≠ 0 →
      jsOrNat cfg.timeoutAnn DEFAULT_BUILD_TIMEOUT = n) ∧
    ((cfg.timeoutAnn = none ∨ cfg.timeoutAnn = some 0) →
      jsOrNat cfg.timeoutAnn DEFAULT_BUILD_TIMEOUT = 90) := by
  refine ⟨?_, ?_, ?_, ?_, ?_, ?_⟩
  · rcases connectRes with e | u
    · rfl
    · by_cases hs : cfg.buildStatus = "RUNNING" <;>
        rcases hgetRes with e2 | d <;> try rcases d with _ | d
      all_goals rcases hsetRes with e3 | u3 <;> simp [startTimer, hs]
  · intro hs t k v hmem
    rcases connectRes with e | u
    · simp [startTimer] at hmem
    · rcases hgetRes with e2 | d <;> try rcases d with _ | d
      all_goals rcases hsetRes with e3 | u3 <;> simp [startTimer, hs] at hmem
  · intro d hd t k v hmem
    subst hd
    rcases connectRes with e | u
    · simp [startTimer] at hmem
    · by_cases hs : cfg.buildStatus = "RUNNING" <;> simp [startTimer, hs] at hmem
  · intro hd hc hs
    subst hd; subst hc
    rcases hsetRes with e3 | u3 <;> simp [startTimer, hs]
  · intro n hn hnz
    simp [jsOrNat, hn, hnz]
  · intro h
    rcases h with h | h <;> simp [jsOrNat, h, DEFAULT_BUILD_TIMEOUT]

/-- Witness for C7 at a concrete running build with a nonzero timeout
annotation and no existing entry. -/
theorem c7_witness :
    (startTimer ⟨1, 2, "RUNNING", "st", some 120⟩
        (Except.ok ()) (Except.ok none) (Except.ok ()) "").2 = true ∧
    ((⟨1, 2, "RUNNING", "st", some 120⟩ : TimerConfig).buildStatus ≠ "RUNNING" →
      ∀ t k v, Effect.hset t k v ∉ (startTimer ⟨1, 2, "RUNNING", "st", some 120⟩
        (Except.ok ()) (Except.ok none) (Except.ok ()) "").1) ∧
    (∀ d, (Except.ok none : Except String (Option String)) = Except.ok (some d) →
      ∀ t k v, Effect.hset t k v ∉ (startTimer ⟨1, 2, "RUNNING", "st", some 120⟩
        (Except.ok ()) (Except.ok none) (Except.ok ()) "").1) ∧
    ((Except.ok none : Except String (Option String)) = Except.ok none →
      (Except.ok () : Except String Unit) = Except.ok () →
      (⟨1, 2, "RUNNING", "st", some 120⟩ : TimerConfig).buildStatus = "RUNNING" →
      Effect.hset (timeoutQueue "") 1
          (StoreValue.timeoutEntry ⟨2, "st",
            jsOrNat (some 120) DEFAULT_BUILD_TIMEOUT⟩) ∈
        (startTimer ⟨1, 2, "RUNNING", "st", some 120⟩
          (Except.ok ()) (Except.ok none) (Except.ok ()) "").1) ∧
    (∀ n, (some 120 : Option Nat) = some n → n ≠ 0 →
      jsOrNat (some 120) DEFAULT_BUILD_TIMEOUT = n) ∧
    (((some 120 : Option Nat) = none ∨ (some 120 : Option Nat) = some 0) →
      jsOrNat (some 120) DEFAULT_BUILD_TIMEOUT = 90) :=
  c7_start_timer ⟨1, 2, "RUNNING", "st", some 120⟩
    (Except.ok ()) (Except.ok none) (Except.ok ()) ""

/-- Counterexample for C3 as stated: at a final 404 response the retry
strategy stops (no retry), but the operation settles as an error — the
promise executor rejects every non-201 final status, 404 included — not
as the success the claim prescribes. -/
theorem c3_counterexample :
    requestRetryStrategyPostEvent none ⟨404, "not found"⟩ = false ∧
    postEventOutcome none ⟨404, "not found"⟩ = Except.error "not found" :=
  ⟨by decide, by simp [postEventOutcome]⟩

/-- C3 (amended): a 404 response to `PostEvent` is terminal — the retry
strategy does not retry it, and the requestretry driver performs no
further attempt — but the final result is an error carrying the
response body, not a success: `postBuildEvent` resolves only on a 201
response. -/
theorem c3_post_event_404 (r : HttpResponse) (h : r.statusCode = 404) :
    requestRetryStrategyPostEvent none r = false ∧
    (∀ (outcomes : Nat → Option String × HttpResponse) (n : Nat),
      outcomes 0 = (none, r) →
      finalAttempt requestRetryStrategyPostEvent outcomes n 0 = 0) ∧
    postEventOutcome none r = Except.error r.body := by
  have hs : requestRetryStrategyPostEvent none r = false := by
    simp [requestRetryStrategyPostEvent, h]
  refine ⟨hs, ?_, ?_⟩
  · intro outcomes n h0
    match n with
    | 0 => rfl
    | 1 => rfl
    | Nat.succ (Nat.succ m) => simp [finalAttempt, h0, hs]
  · simp [postEventOutcome, h]

/-- Witness for C3 (amended) at a concrete 404 response. -/
theorem c3_witness :
    requestRetryStrategyPostEvent none ⟨404, "nf"⟩ = false ∧
    (∀ (outcomes : Nat → Option String × HttpResponse) (n : Nat),
      outcomes 0 = (none, ⟨404, "nf"⟩) →
      finalAttempt requestRetryStrategyPostEvent outcomes n 0 = 0) ∧
    postEventOutcome none ⟨404, "nf"⟩ =
      Except.error (HttpResponse.mk 404 "nf").body :=
  c3_post_event_404 ⟨404, "nf"⟩ rfl

/-- Counterexample for C8 as stated: a 201 response has a status other
than 200, yet the retry strategy does not ask for a retry. -/
theorem c8_counterexample :
    (201 : Nat) ≠ 200 ∧ requestRetryStrategy none ⟨201, "created"⟩ = false := by
  constructor <;> decide

/-- C8 (amended): the retry strategy used by `UpdateBuildStatus` retries
exactly on a transport error or a response whose status is neither 200
nor 201, and the requestretry options cap attempts at `RETRY_LIMIT = 3`
with a `RETRY_DELAY`-second (5000 ms) delay. -/
theorem c8_retry_strategy (err : Option String) (r : HttpResponse) :
    (requestRetryStrategy err r = true ↔
      err.isSome = true ∨ (r.statusCode ≠ 200 ∧ r.statusCode ≠ 201)) ∧
    requestRetryOptions.maxAttempts = 3 ∧
    requestRetryOptions.retryDelayMs = 5000 := by
  refine ⟨?_, rfl, rfl⟩
  simp only [requestRetryStrategy, Bool.or_eq_true, Bool.and_eq_true, bne_iff_ne,
    ne_eq]
  tauto

/-- Witness for C8 (amended) at a concrete 500 response. -/
theorem c8_witness :
    (requestRetryStrategy none ⟨500, "e"⟩ = true ↔
      (none : Option String).isSome = true ∨
        ((HttpResponse.mk 500 "e").statusCode ≠ 200 ∧
          (HttpResponse.mk 500 "e").statusCode ≠ 201)) ∧
    requestRetryOptions.maxAttempts = 3 ∧
    requestRetryOptions.retryDelayMs = 5000 :=
  c8_retry_strategy none ⟨500, "e"⟩

end ExecutorQueue
